import Mathlib

/-!
Verification of the `sparkies/frontend` API module (`src/api.rs`).

The module is a set of Rocket HTTP handlers: `login`, `logout`,
`list_authed` / `list_invalid`, `add`, `send`, gated by the `AuthedUser`
request guard.  We embed each handler as a pure Lean function.  The
database query and the bcrypt verification are effects of external
libraries; they are embedded as explicit inputs: the users table as a
list of rows (with the diesel `get_result` semantics of first match or
`NotFound`), arbitrary query outcomes as an `Except DbError User` value,
and `bcrypt::verify` as a function parameter returning
`Except Unit Bool` (mirroring `Result<bool, BcryptError>`).
-/

/-- Modelled from the spec: the `User` row of the users table (the `db`
module is not part of this source tree).  A user has a unique username
and a bcrypt-hashed password. -/
structure User where
  username : String
  password : String
deriving DecidableEq, Repr

/-- Errors a diesel query can produce: `NotFound` when no row matches,
or any other database error (`Err(_)` in the handler match), carried
here with an arbitrary message payload. -/
inductive DbError where
  | NotFound : DbError
  | Other : String → DbError
deriving DecidableEq, Repr

/-- Embeds lines 155-157 of `api.rs`: the diesel query
`users.filter(username.eq(&login.user)).get_result::<User>(&*conn)`,
which returns the first row whose username matches, and the error
`NotFound` when there is none. -/
def get_result (table : List User) (uname : String) : Except DbError User :=
  match table.find? (fun r => r.username == uname) with
  | some r => Except.ok r
  | none => Except.error DbError.NotFound

/-- The private cookie jar, as an association list of name/value pairs.
Rocket signs and encrypts private cookies; a pair being present in this
list models a valid private cookie being carried by the request. -/
abbrev Cookies := List (String × String)

/-- Embeds `cookies.get_private(name)`: the first cookie with the given
name, if any. -/
def Cookies.get_private (cs : Cookies) (n : String) : Option String :=
  (cs.find? (fun c => c.1 == n)).map Prod.snd

/-- Embeds `cookies.add_private(cookie)`: the new cookie shadows any
older cookie of the same name. -/
def Cookies.add_private (cs : Cookies) (c : String × String) : Cookies :=
  c :: cs

/-- Embeds `cookies.remove_private(cookie)`: every cookie with that
name is removed from the jar. -/
def Cookies.remove_private (cs : Cookies) (n : String) : Cookies :=
  cs.filter (fun c => c.1 != n)

/-- Represents a user who is authorized via private cookies
(`struct AuthedUser` in `api.rs`). -/
structure AuthedUser where
deriving DecidableEq, Repr

/-- The request-guard outcome (`rocket::Outcome` restricted to the two
constructors the guard uses): success, or forward to a lower-ranked
handler. -/
inductive Outcome (α : Type) where
  | Success : α → Outcome α
  | Forward : Outcome α
deriving DecidableEq, Repr

/-- Embeds `AuthedUser::from_request` (lines 39-44 of `api.rs`): if the
request carries a private cookie named auth the guard succeeds,
otherwise the request is forwarded. -/
def AuthedUser.from_request (cs : Cookies) : Outcome AuthedUser :=
  match Cookies.get_private cs "auth" with
  | some _ => Outcome.Success AuthedUser.mk
  | none => Outcome.Forward

/-- Modelled from the spec: one sensor-node entry of the list endpoint
(`super::info::InfoSet` is not part of this source tree).  Fields are
the ones the spec and the doc example name: identifier, display name,
unit string, last update time, min/max value, min/max voltage, current
reading.  Numeric readings are modelled as rationals. -/
structure NodeData where
  uuid : Int
  name : String
  units : String
  last_update : Int
  min_value : Rat
  max_value : Rat
  min_voltage : Rat
  max_voltage : Rat
  reading : Rat
deriving DecidableEq, Repr

/-- Modelled from the spec: the `InfoSet` request guard carries the
cached sensor readings; `nodes` returns them as a list. -/
structure InfoSet where
  nodes : List NodeData
deriving DecidableEq, Repr

/-- The JSON body of the `/api/send` request: message content and
destination node id (`struct Message` in `api.rs`). -/
structure Message where
  content : String
  dest : Nat
deriving DecidableEq, Repr

/-- The JSON body of the `/api/login` request (`struct Login` in
`api.rs`). -/
structure Login where
  user : String
  pass : String
deriving DecidableEq, Repr

/-- Modelled from the spec: the insertable xbee row (`db::models::NewXbee`
is not part of this source tree); fields follow the doc example of the
add endpoint: node_id, name, units. -/
structure NewXbee where
  node_id : Int
  name : String
  units : String
deriving DecidableEq, Repr

/-- Modelled from the spec: `db::create_xbee` (the `db` module is not
part of this source tree) inserts a new sensor-node row into the xbee
table.  The spec notes no validation of duplicate ids. -/
def create_xbee (tbl : List NewXbee) (nid : Int) (nm : String) (un : String) :
    List NewXbee :=
  tbl ++ [NewXbee.mk nid nm un]

/-- A JSON object built by the handlers.  Every `json!` literal in
`api.rs` uses keys among success, error, content and nodes; a missing
key is `none`. -/
structure JsonValue where
  success : Bool
  error : Option String
  content : Option String
  nodes : Option (List NodeData)
deriving DecidableEq, Repr

/-- Embeds the handler `send` (lines 62-68 of `api.rs`): echo the
message content back with success true. -/
def send (message : Message) : JsonValue :=
  JsonValue.mk true none (some message.content) none

/-- Embeds the handler `add` (lines 85-91 of `api.rs`): insert the xbee
row via `db::create_xbee`, then return success true unconditionally. -/
def add (xbee : NewXbee) (tbl : List NewXbee) : JsonValue × List NewXbee :=
  (JsonValue.mk true none none none, create_xbee tbl xbee.node_id xbee.name xbee.units)

/-- Embeds the handler `list_authed` (lines 119-124 of `api.rs`): the
nodes of the info set with success true. -/
def list_authed (info : InfoSet) : JsonValue :=
  JsonValue.mk true none none (some info.nodes)

/-- Embeds the rank-2 handler `list_invalid` (lines 131-135 of
`api.rs`): success false, nothing else. -/
def list_invalid : JsonValue :=
  JsonValue.mk false none none none

/-- Embeds the `match res` of the login handler (lines 159-195 of
`api.rs`), with the query result `res` and the bcrypt verifier as
inputs.  Returns the JSON response together with the cookie jar after
the handler ran. -/
def loginMatch (req : Login) (res : Except DbError User)
    (verify : String → String → Except Unit Bool)
    (cookies : Cookies) : JsonValue × Cookies :=
  match res with
  | Except.ok user =>
    match verify req.pass user.password with
    | Except.ok true =>
      (JsonValue.mk true none none none,
       Cookies.add_private cookies ("auth", "true"))
    | _ =>
      (JsonValue.mk false (some "Invalid login credentials.") none none, cookies)
  | Except.error DbError.NotFound =>
    (JsonValue.mk false (some "No user with that name found.") none none, cookies)
  | Except.error _ =>
    (JsonValue.mk false (some "Error getting information from database.") none none,
     cookies)

/-- Embeds the handler `login` (lines 152-195 of `api.rs`): run the
user query against the table, then dispatch on the result. -/
def login (verify : String → String → Except Unit Bool) (table : List User)
    (req : Login) (cookies : Cookies) : JsonValue × Cookies :=
  loginMatch req (get_result table req.user) verify cookies

/-- Embeds the handler `logout` (lines 200-205 of `api.rs`): remove the
auth cookie, return success true. -/
def logout (cookies : Cookies) : JsonValue × Cookies :=
  (JsonValue.mk true none none none, Cookies.remove_private cookies "auth")

/-- Rocket routing for GET /api/list: the rank-1 route `list_authed`
requires the `AuthedUser` guard; when the guard forwards, the rank-2
route `list_invalid` handles the request. -/
def list_route (cs : Cookies) (info : InfoSet) : JsonValue :=
  match AuthedUser.from_request cs with
  | Outcome.Success _ => list_authed info
  | Outcome.Forward => list_invalid

/-- Rocket routing for POST /api/send: the route requires the
`AuthedUser` guard; with no lower-ranked route, a forwarded request is
not handled (`none`). -/
def send_route (cs : Cookies) (m : Message) : Option JsonValue :=
  match AuthedUser.from_request cs with
  | Outcome.Success _ => some (send m)
  | Outcome.Forward => none

/-- Rocket routing for POST /api/add: the route requires the
`AuthedUser` guard; with no lower-ranked route, a forwarded request is
not handled (`none`). -/
def add_route (cs : Cookies) (x : NewXbee) (tbl : List NewXbee) :
    Option (JsonValue × List NewXbee) :=
  match AuthedUser.from_request cs with
  | Outcome.Success _ => some (add x tbl)
  | Outcome.Forward => none

/-- Looking up a name right after adding a private cookie of that name
yields the added value. -/
theorem get_private_add_private (cs : Cookies) (n v : String) :
    Cookies.get_private (Cookies.add_private cs (n, v)) n = some v := by
  simp [Cookies.get_private, Cookies.add_private, List.find?]

/-- Looking up a name right after removing every private cookie of that
name yields nothing. -/
theorem get_private_remove_private (cs : Cookies) (n : String) :
    Cookies.get_private (Cookies.remove_private cs n) n = none := by
  have h : List.find? (fun c => c.1 == n) (Cookies.remove_private cs n) = none := by
    rw [List.find?_eq_none]
    intro x hx
    have hp := List.of_mem_filter hx
    simp only [bne_iff_ne, ne_eq, decide_eq_true_eq] at hp
    simp only [beq_iff_eq]
    exact hp
  simp [Cookies.get_private, h]

/-- C1: a login request whose username is found in the users table and
whose password verifies against the stored bcrypt hash returns success
true, adds the private auth cookie, and a subsequent request carrying
the resulting jar passes the AuthedUser guard and reaches the
authenticated list handler. -/
theorem login_success_sets_cookie_and_authenticates
    (verify : String → String → Except Unit Bool) (table : List User)
    (req : Login) (cookies : Cookies) (u : User)
    (hfind : get_result table req.user = Except.ok u)
    (hver : verify req.pass u.password = Except.ok true) :
    (login verify table req cookies).1 = JsonValue.mk true none none none ∧
    Cookies.get_private (login verify table req cookies).2 "auth" = some "true" ∧
    AuthedUser.from_request (login verify table req cookies).2 =
      Outcome.Success AuthedUser.mk ∧
    ∀ info : InfoSet, list_route (login verify table req cookies).2 info =
      list_authed info := by
  have hres : login verify table req cookies =
      (JsonValue.mk true none none none,
       Cookies.add_private cookies ("auth", "true")) := by
    simp only [login, loginMatch, hfind, hver]
  have hcookie : Cookies.get_private (login verify table req cookies).2 "auth" =
      some "true" := by
    rw [hres]
    exact get_private_add_private cookies "auth" "true"
  have hguard : AuthedUser.from_request (login verify table req cookies).2 =
      Outcome.Success AuthedUser.mk := by
    unfold AuthedUser.from_request
    rw [hcookie]
  refine ⟨by rw [hres], hcookie, hguard, fun info => ?_⟩
  unfold list_route
  rw [hguard]

/-- Witness for C1 at a concrete table, request and verifier. -/
theorem login_success_sets_cookie_and_authenticates_witness :
    (login (fun p h => Except.ok (p == h)) [User.mk "alice" "h1"]
        (Login.mk "alice" "h1") []).1 = JsonValue.mk true none none none ∧
    Cookies.get_private (login (fun p h => Except.ok (p == h))
        [User.mk "alice" "h1"] (Login.mk "alice" "h1") []).2 "auth" = some "true" ∧
    list_route (login (fun p h => Except.ok (p == h)) [User.mk "alice" "h1"]
        (Login.mk "alice" "h1") []).2 (InfoSet.mk []) = list_authed (InfoSet.mk []) :=
  have T := login_success_sets_cookie_and_authenticates
    (fun p h => Except.ok (p == h)) [User.mk "alice" "h1"] (Login.mk "alice" "h1")
    [] (User.mk "alice" "h1") (by rfl) (by rfl)
  ⟨T.1, T.2.1, T.2.2.2 (InfoSet.mk [])⟩

/-- C2: a login request whose username is not present in the users
table (the lookup yields NotFound) returns exactly success false with
the error message about no user found, and leaves the jar unchanged. -/
theorem login_unknown_user
    (verify : String → String → Except Unit Bool) (table : List User)
    (req : Login) (cookies : Cookies)
    (hfind : get_result table req.user = Except.error DbError.NotFound) :
    login verify table req cookies =
      (JsonValue.mk false (some "No user with that name found.") none none,
       cookies) := by
  simp only [login, loginMatch, hfind]

/-- Witness for C2 on the empty users table. -/
theorem login_unknown_user_witness :
    login (fun p h => Except.ok (p == h)) [] (Login.mk "bob" "x") [] =
      (JsonValue.mk false (some "No user with that name found.") none none, []) :=
  login_unknown_user (fun p h => Except.ok (p == h)) [] (Login.mk "bob" "x") []
    (by rfl)

/-- C3: a login request whose username is found but whose password does
not verify against the stored hash returns exactly success false with
the invalid-credentials message, and leaves the jar unchanged. -/
theorem login_wrong_password
    (verify : String → String → Except Unit Bool) (table : List User)
    (req : Login) (cookies : Cookies) (u : User)
    (hfind : get_result table req.user = Except.ok u)
    (hver : verify req.pass u.password = Except.ok false) :
    login verify table req cookies =
      (JsonValue.mk false (some "Invalid login credentials.") none none,
       cookies) := by
  simp only [login, loginMatch, hfind, hver]

/-- Witness for C3 with a stored hash the supplied password fails. -/
theorem login_wrong_password_witness :
    login (fun p h => Except.ok (p == h)) [User.mk "alice" "h1"]
        (Login.mk "alice" "wrong") [] =
      (JsonValue.mk false (some "Invalid login credentials.") none none, []) :=
  login_wrong_password (fun p h => Except.ok (p == h)) [User.mk "alice" "h1"]
    (Login.mk "alice" "wrong") [] (User.mk "alice" "h1") (by rfl) (by rfl)

/-- C4: when the user query fails with any error other than NotFound,
the login handler returns success false with the generic message
(spelled in full in the source as about getting information from the
database), and leaves the jar unchanged. -/
theorem login_other_db_error
    (verify : String → String → Except Unit Bool) (req : Login)
    (cookies : Cookies) (e : DbError) (h : e ≠ DbError.NotFound) :
    loginMatch req (Except.error e) verify cookies =
      (JsonValue.mk false (some "Error getting information from database.")
        none none, cookies) := by
  cases e with
  | NotFound => exact absurd rfl h
  | Other m => rfl

/-- Witness for C4 at a concrete non-NotFound error. -/
theorem login_other_db_error_witness :
    DbError.Other "connection lost" ≠ DbError.NotFound ∧
    loginMatch (Login.mk "alice" "pw") (Except.error (DbError.Other "connection lost"))
        (fun p h => Except.ok (p == h)) [] =
      (JsonValue.mk false (some "Error getting information from database.")
        none none, []) :=
  ⟨by decide,
   login_other_db_error (fun p h => Except.ok (p == h)) (Login.mk "alice" "pw")
     [] (DbError.Other "connection lost") (by decide)⟩

/-- C5: a request carrying no private auth cookie is forwarded by the
AuthedUser guard rather than rejected; GET /api/list then lands in the
rank-2 handler, which returns exactly success false with no node data,
whatever the stored sensor readings are. -/
theorem list_without_cookie
    (cs : Cookies) (info : InfoSet)
    (h : Cookies.get_private cs "auth" = none) :
    AuthedUser.from_request cs = Outcome.Forward ∧
    list_route cs info = list_invalid ∧
    list_invalid = JsonValue.mk false none none none := by
  have hg : AuthedUser.from_request cs = Outcome.Forward := by
    simp only [AuthedUser.from_request, h]
  refine ⟨hg, ?_, rfl⟩
  simp only [list_route, hg]

/-- Witness for C5 with an empty jar and a nonempty info set. -/
theorem list_without_cookie_witness :
    Cookies.get_private [] "auth" = none ∧
    (AuthedUser.from_request [] = Outcome.Forward ∧
     list_route [] (InfoSet.mk [NodeData.mk 2 "Test" "C" 1523568385 0 150 0 5 413]) =
       list_invalid ∧
     list_invalid = JsonValue.mk false none none none) :=
  ⟨rfl, list_without_cookie []
    (InfoSet.mk [NodeData.mk 2 "Test" "C" 1523568385 0 150 0 5 413]) rfl⟩

/-- C6: logout removes the private auth cookie whatever the incoming
jar holds and returns success true; a subsequent list request with the
resulting jar takes the unauthenticated branch. -/
theorem logout_clears_cookie (cookies : Cookies) :
    (logout cookies).1 = JsonValue.mk true none none none ∧
    Cookies.get_private (logout cookies).2 "auth" = none ∧
    ∀ info : InfoSet, list_route (logout cookies).2 info = list_invalid := by
  have hc : Cookies.get_private (logout cookies).2 "auth" = none :=
    get_private_remove_private cookies "auth"
  refine ⟨rfl, hc, fun info => ?_⟩
  simp only [list_route, AuthedUser.from_request, hc]

/-- C7: an authenticated POST /api/add request with a well-formed
NewXbee body reaches the handler, which inserts the row into the xbee
table and returns success true, for every table (so also when the id is
already present) with no error branch. -/
theorem add_authed_inserts_row
    (cs : Cookies) (v : String)
    (h : Cookies.get_private cs "auth" = some v)
    (x : NewXbee) (tbl : List NewXbee) :
    add_route cs x tbl =
      some (JsonValue.mk true none none none,
        tbl ++ [NewXbee.mk x.node_id x.name x.units]) := by
  simp only [add_route, AuthedUser.from_request, h, add, create_xbee]

/-- Witness for C7: the table already holds a row with the same id and
the insert still succeeds, appending a duplicate. -/
theorem add_authed_inserts_row_witness :
    Cookies.get_private [("auth", "true")] "auth" = some "true" ∧
    add_route [("auth", "true")] (NewXbee.mk 1234 "Temperature Sensor" "C")
        [NewXbee.mk 1234 "Old" "F"] =
      some (JsonValue.mk true none none none,
        [NewXbee.mk 1234 "Old" "F", NewXbee.mk 1234 "Temperature Sensor" "C"]) :=
  ⟨rfl, add_authed_inserts_row [("auth", "true")] "true" rfl
    (NewXbee.mk 1234 "Temperature Sensor" "C") [NewXbee.mk 1234 "Old" "F"]⟩

/-- C8: an authenticated POST /api/send request with a well-formed
Message body returns exactly the content field of the message together
with success true, and nothing else. -/
theorem send_authed_echoes
    (cs : Cookies) (v : String)
    (h : Cookies.get_private cs "auth" = some v)
    (m : Message) :
    send_route cs m = some (JsonValue.mk true none (some m.content) none) := by
  simp only [send_route, AuthedUser.from_request, h, send]

/-- Witness for C8 at a concrete message. -/
theorem send_authed_echoes_witness :
    Cookies.get_private [("auth", "true")] "auth" = some "true" ∧
    send_route [("auth", "true")] (Message.mk "Data to send" 1234) =
      some (JsonValue.mk true none (some "Data to send") none) :=
  ⟨rfl, send_authed_echoes [("auth", "true")] "true" rfl
    (Message.mk "Data to send" 1234)⟩

/-- C9: whenever the login handler answers success false, for any query
result and any verifier outcome, the cookie jar is returned unchanged:
a failed login never adds the auth cookie. -/
theorem failed_login_leaves_cookies_unchanged
    (verify : String → String → Except Unit Bool) (req : Login)
    (res : Except DbError User) (cookies : Cookies)
    (h : (loginMatch req res verify cookies).1.success = false) :
    (loginMatch req res verify cookies).2 = cookies := by
  cases res with
  | ok u =>
    cases hv : verify req.pass u.password with
    | ok b =>
      cases b with
      | false => simp only [loginMatch, hv]
      | true =>
        simp only [loginMatch, hv] at h
        exact Bool.noConfusion h
    | error e => simp only [loginMatch, hv]
  | error e => cases e <;> rfl

/-- Witness for C9 at a failing lookup. -/
theorem failed_login_leaves_cookies_unchanged_witness :
    (loginMatch (Login.mk "bob" "x") (Except.error DbError.NotFound)
        (fun p h => Except.ok (p == h)) [("other", "1")]).1.success = false ∧
    (loginMatch (Login.mk "bob" "x") (Except.error DbError.NotFound)
        (fun p h => Except.ok (p == h)) [("other", "1")]).2 = [("other", "1")] :=
  ⟨rfl, failed_login_leaves_cookies_unchanged (fun p h => Except.ok (p == h))
    (Login.mk "bob" "x") (Except.error DbError.NotFound) [("other", "1")] rfl⟩

/-- C10: a login request whose username is found but for which the
bcrypt verifier returns an error (for instance a malformed stored hash)
is answered with success false and the invalid-credentials message, not
the generic database error, and the jar is unchanged. -/
theorem login_verify_error_reports_invalid_credentials
    (verify : String → String → Except Unit Bool) (table : List User)
    (req : Login) (cookies : Cookies) (u : User)
    (hfind : get_result table req.user = Except.ok u)
    (hver : verify req.pass u.password = Except.error ()) :
    login verify table req cookies =
      (JsonValue.mk false (some "Invalid login credentials.") none none,
       cookies) := by
  simp only [login, loginMatch, hfind, hver]

/-- Witness for C10 with a verifier that always errors. -/
theorem login_verify_error_reports_invalid_credentials_witness :
    login (fun _ _ => Except.error ()) [User.mk "alice" "not-a-hash"]
        (Login.mk "alice" "pw") [] =
      (JsonValue.mk false (some "Invalid login credentials.") none none, []) :=
  login_verify_error_reports_invalid_credentials (fun _ _ => Except.error ())
    [User.mk "alice" "not-a-hash"] (Login.mk "alice" "pw") []
    (User.mk "alice" "not-a-hash") (by rfl) (by rfl)
